import Mathlib

/-!
Shallow embedding of the cluster-store bootstrap and node-identity
registration subsystem (`src/bin/nanocld/src/utils/store.rs` and
`src/bin/nanocld/src/utils/node.rs`) of the nanocl daemon.

External effects (DNS resolution, raw TCP connects, the r2d2 pool
builder, the environment variable lookup, the diesel migration harness,
and the SQL node table) are modelled as explicit oracle parameters or
explicit state; the Rust functions become pure Lean functions over those
oracles, mirroring the source line by line.
-/

namespace Nanocl

/-- The error values the subsystem builds, one constructor per
construction site in the source:
`IoError::invalid_data(ctx, msg)` in `wait_store`,
`IoError::interupted(ctx, msg)` in `create_pool` and the migration step
of `init`, and
`IoError::new(ctx, io::Error::new(ErrorKind::NotConnected, err))` in
`get_pool_conn`. -/
inductive IoError where
  | invalidData (context msg : String)
  | interupted (context msg : String)
  | notConnected (context msg : String)
  deriving Repr, DecidableEq

/-- A resolved socket address, kept abstract: `wait_store` only passes
it to `rt::tcp_connect`, never inspects it. -/
structure SockAddr where
  id : Nat
  deriving Repr, DecidableEq

/-- Oracle for the network side of `wait_store`:
`resolve` models `str::to_socket_addrs` (an `Err` carries the display of
the io error, an `Ok` the list of resolved addresses), and
`connect a n` models whether the `n`-th call (counted from 0) of
`ntex::rt::tcp_connect(a)` succeeds. -/
structure Net where
  resolve : String → Except String (List SockAddr)
  connect : SockAddr → Nat → Bool

/-- Observable outcome of a run of `wait_store`, instrumented with how
many `tcp_connect` calls were made and how many seconds were spent in
`time::sleep`.  `running` is the fuel-exhausted case and models a loop
iteration still in progress (the Rust loop has no exit besides a
successful connect). -/
inductive WaitResult where
  | ok (attempts slept : Nat)
  | err (e : IoError)
  | panic (msg : String)
  | running (attempts slept : Nat)
  deriving Repr, DecidableEq

/-- The `while let Err(_) = rt::tcp_connect(addr).await` loop of
`wait_store`, lines 100–105: each failed connect logs a warning and
sleeps 2 seconds; the first successful connect exits the loop, after
which one more 2-second sleep runs before `Ok(())`.  `i` counts connect
calls already made and `slept` the seconds already slept. -/
def wait_loop (connect : Nat → Bool) : Nat → Nat → Nat → WaitResult
  | 0, i, slept => .running i slept
  | fuel + 1, i, slept =>
    if connect i then .ok (i + 1) (slept + 2)
    else wait_loop connect fuel (i + 1) (slept + 2)

/-- `wait_store` (store.rs lines 88–106): resolve the address string,
mapping a resolution error to `IoError::invalid_data("Wait store",
format!("invalid address format {err}"))`; take the first resolved
address with `.next().expect("Unable to resolve store address")`
(a panic when the iterator is empty); then run the connect loop. -/
def wait_store (net : Net) (addr : String) (fuel : Nat) : WaitResult :=
  match net.resolve addr with
  | .error err =>
    .err (.invalidData "Wait store" ("invalid address format " ++ err))
  | .ok [] => .panic "Unable to resolve store address"
  | .ok (a :: _) => wait_loop (net.connect a) fuel 0 0

/-- A connection checked out of the pool, kept abstract. -/
structure DBConn where
  id : Nat
  deriving Repr, DecidableEq

/-- The r2d2 connection pool.  The only operation the subsystem performs
on it is `pool.get()`, whose outcome (for the one call `init` makes) is
recorded in `getResult`; an `Err` carries the display of the r2d2
error. -/
structure Pool where
  id : Nat
  getResult : Except String DBConn

/-- The daemon configuration fields the subsystem reads
(`nanocl_stubs::config::DaemonConfig`). -/
structure DaemonConfig where
  state_dir : String
  hostname : String
  gateway : String

/-- The connection string `create_pool` assembles (store.rs lines
33–35): `options` is the format string of line 34 and `db_url` the one
of line 35. -/
def db_url (host state_dir : String) : String :=
  let options := "/defaultdb?sslmode=verify-full&sslcert=" ++ state_dir
    ++ "/store/certs/client.root.crt&sslkey=" ++ state_dir
    ++ "/store/certs/client.root.key&sslrootcert=" ++ state_dir
    ++ "/store/certs/ca.crt"
  "postgresql://root:root@" ++ host ++ options

/-- Models `ntex::web::block(f).await`: the closure runs once on the
blocking-thread arena and its result is awaited; the value returned to
the caller is exactly the closure's result. -/
def web_block {α : Type} (f : Unit → Except String α) : Except String α :=
  f ()

/-- `create_pool` (store.rs lines 29–44): build the connection string
from the host and `daemon_conf.state_dir`, run the r2d2 pool builder
inside `web::block`, and map a failure to
`IoError::interupted("CockroachDB", format!("Unable to create pool {err}"))`.
`build` is the oracle for `r2d2::Pool::builder().build(manager)`. -/
def create_pool (build : String → Except String Pool)
    (host : String) (daemon_conf : DaemonConfig) : Except IoError Pool :=
  let state_dir := daemon_conf.state_dir
  let url := db_url host state_dir
  match web_block (fun _ => build url) with
  | .ok pool => .ok pool
  | .error err =>
    .error (.interupted "CockroachDB" ("Unable to create pool " ++ err))

/-- `get_pool_conn` (store.rs lines 60–71): one call to `pool.get()`;
on success return the connection, on error return
`IoError::new("CockroachDB connection",
io::Error::new(ErrorKind::NotConnected, err))`. -/
def get_pool_conn (pool : Pool) : Except IoError DBConn :=
  match pool.getResult with
  | .ok conn => .ok conn
  | .error err => .error (.notConnected "CockroachDB connection" err)

/-- Result of `std::env::var("STORE_URL")`: `Err` is either
`VarError::NotPresent` or `VarError::NotUnicode`. -/
inductive VarError where
  | notPresent
  | notUnicode
  deriving Repr, DecidableEq

/-- The store address computed on store.rs lines 123–124:
`std::env::var("STORE_URL").unwrap_or("nstore.nanocl.internal:26258".to_owned())`. -/
def store_addr_of (var : Except VarError String) : String :=
  match var with
  | .ok s => s
  | .error _ => "nstore.nanocl.internal:26258"

/-- The whole external world `init` touches: the `STORE_URL` variable,
the network oracle for `wait_store`, the pool builder for `create_pool`,
and the outcome of `conn.run_pending_migrations(MIGRATIONS)` on the
store (an `Err` carries the display of the migration error). -/
structure Env where
  store_url : Except VarError String
  net : Net
  build : String → Except String Pool
  migResult : Except String Unit

/-- Observable outcome of a run of `init`: a ready pool, a propagated
error, a propagated panic, or still blocked inside `wait_store`. -/
inductive InitResult where
  | ok (pool : Pool)
  | err (e : IoError)
  | panic (msg : String)
  | running

/-- `init` (store.rs lines 121–135): compute the store address from
`STORE_URL` with the fixed default, `wait_store(&store_addr).await?`,
`create_pool(&store_addr, daemon_conf).await?`,
`get_pool_conn(&pool)?`, then
`conn.run_pending_migrations(MIGRATIONS)` with a failure mapped to
`IoError::interupted("CockroachDB migration", format!("{err}"))`, and
finally `Ok(pool)`. -/
def init (env : Env) (daemon_conf : DaemonConfig) (fuel : Nat) : InitResult :=
  let store_addr := store_addr_of env.store_url
  match wait_store env.net store_addr fuel with
  | .err e => .err e
  | .panic msg => .panic msg
  | .running _ _ => .running
  | .ok _ _ =>
    match create_pool env.build store_addr daemon_conf with
    | .error e => .err e
    | .ok pool =>
      match get_pool_conn pool with
      | .error e => .err e
      | .ok _conn =>
        match env.migResult with
        | .error err => .err (.interupted "CockroachDB migration" err)
        | .ok _ => .ok pool

/-- The store's migration ledger: the identifiers already recorded as
applied, in the order they were recorded. -/
structure MigState where
  applied : List Nat
  deriving Repr, DecidableEq

/-- The migrations a ledger does not yet record, in the order the
embedded set lists them. -/
def pending_of (migrations applied : List Nat) : List Nat :=
  migrations.filter (fun m => !applied.contains m)

/-- Modelled from the spec: the body of diesel's
`MigrationHarness::run_pending_migrations` is not part of this
repository; §4.3 specifies its contract — "apply all migrations not yet
recorded as applied, in ascending order" against the embedded
`MigrationSet`, recording each applied one in the store's ledger.  The
embedded set (`embed_migrations!("./migrations")`, store.rs line 122) is
given as its list of identifiers, which §3 states is ascending.  Returns
the new ledger and the list of migrations applied by this run, in
application order. -/
def run_pending_migrations (migrations : List Nat) (st : MigState) :
    MigState × List Nat :=
  let pending := pending_of migrations st.applied
  (⟨st.applied ++ pending⟩, pending)

/-- A row of the `NodeRecord` table / the `NodeDb` model struct built in
`node.rs` lines 6–9. -/
structure NodeDb where
  name : String
  ip_address : String
  deriving Repr, DecidableEq

/-- The persisted `NodeRecord` table, unique on `name` (§6); rows in
insertion order. -/
abbrev NodeTable := List NodeDb

/-- Modelled from the spec: the body of `NodeDb::create_if_not_exists`
is not part of this repository (only its caller `register` is); §4.5
specifies it — "a create-if-not-exists upsert keyed by `name`: if no
record with that name exists, insert it; if one exists, the operation is
a no-op (existing `ip_address` is not overwritten)". -/
def create_if_not_exists (node : NodeDb) (table : NodeTable) : NodeTable :=
  if table.any (fun r => r.name == node.name) then table
  else table ++ [node]

/-- The daemon state `register` reads: its configuration and the node
table reachable through its pool. -/
structure DaemonState where
  config : DaemonConfig
  nodes : NodeTable

/-- `register` (node.rs lines 5–12): build
`NodeDb { name: state.config.hostname, ip_address: state.config.gateway }`
and pass it to `NodeDb::create_if_not_exists`; returns the updated node
table. -/
def register (state : DaemonState) : NodeTable :=
  let node : NodeDb :=
    { name := state.config.hostname, ip_address := state.config.gateway }
  create_if_not_exists node state.nodes

/-- Number of rows of a table carrying a given name. -/
def count_name (table : NodeTable) (name : String) : Nat :=
  (table.filter (fun r => r.name == name)).length

/-! ## Theorems -/

/-- Claim C8: for every host and state directory, `create_pool` builds
exactly the connection string
`postgresql://root:root@<host>/defaultdb?sslmode=verify-full&sslcert=<state_dir>/store/certs/client.root.crt&sslkey=<state_dir>/store/certs/client.root.key&sslrootcert=<state_dir>/store/certs/ca.crt`
and hands exactly that string, once, to the pool builder. -/
theorem create_pool_connection_string
    (build : String → Except String Pool) (host : String)
    (conf : DaemonConfig) :
    db_url host conf.state_dir =
      "postgresql://root:root@" ++ host
        ++ "/defaultdb?sslmode=verify-full&sslcert=" ++ conf.state_dir
        ++ "/store/certs/client.root.crt&sslkey=" ++ conf.state_dir
        ++ "/store/certs/client.root.key&sslrootcert=" ++ conf.state_dir
        ++ "/store/certs/ca.crt"
    ∧ create_pool build host conf =
        (match build (db_url host conf.state_dir) with
          | .ok pool => .ok pool
          | .error err =>
            .error (.interupted "CockroachDB" ("Unable to create pool " ++ err))) := by
  constructor
  · simp only [db_url, String.append_assoc]
  · rfl

/-- Claim C6: when pool construction fails, `create_pool` returns a
`StoreInterrupted`-kind error carrying the underlying driver error; the
construction closure runs exactly once through the blocking boundary
`web_block` and its result is awaited (the outcome is fully determined
by that single application of the builder). -/
theorem create_pool_build_failure
    (build : String → Except String Pool) (host : String)
    (conf : DaemonConfig) :
    (∀ err, build (db_url host conf.state_dir) = .error err →
      create_pool build host conf =
        .error (.interupted "CockroachDB" ("Unable to create pool " ++ err)))
    ∧ create_pool build host conf =
        (match web_block (fun _ => build (db_url host conf.state_dir)) with
          | .ok pool => .ok pool
          | .error err =>
            .error (.interupted "CockroachDB" ("Unable to create pool " ++ err))) := by
  refine ⟨fun err h => ?_, rfl⟩
  simp only [create_pool, web_block, h]

/-- Witness for `create_pool_build_failure` at a concrete failing
builder. -/
theorem create_pool_build_failure_witness :
    create_pool (fun _ => .error "connection refused") "h1"
        ⟨"/var/lib/nanocl", "n1", "10.0.0.1"⟩ =
      .error (.interupted "CockroachDB"
        "Unable to create pool connection refused") :=
  (create_pool_build_failure (fun _ => .error "connection refused") "h1"
    ⟨"/var/lib/nanocl", "n1", "10.0.0.1"⟩).1 "connection refused" rfl

/-- Claim C7: `get_pool_conn` returns the acquired connection when the
pool yields one, and on any pool error returns a
`StoreDisconnected`-kind (`NotConnected`) error wrapping the pool error;
it performs exactly one acquisition and never retries. -/
theorem get_pool_conn_spec (pool : Pool) :
    (∀ conn, pool.getResult = .ok conn → get_pool_conn pool = .ok conn)
    ∧ (∀ err, pool.getResult = .error err →
        get_pool_conn pool =
          .error (.notConnected "CockroachDB connection" err)) := by
  refine ⟨fun conn h => ?_, fun err h => ?_⟩ <;>
    simp only [get_pool_conn, h]

/-- Witness for `get_pool_conn_spec`: both branches at concrete
pools. -/
theorem get_pool_conn_spec_witness :
    get_pool_conn ⟨0, .ok ⟨7⟩⟩ = .ok ⟨7⟩
    ∧ get_pool_conn ⟨1, .error "timed out waiting for connection"⟩ =
        .error (.notConnected "CockroachDB connection"
          "timed out waiting for connection") :=
  ⟨(get_pool_conn_spec ⟨0, .ok ⟨7⟩⟩).1 ⟨7⟩ rfl,
    (get_pool_conn_spec ⟨1, .error "timed out waiting for connection"⟩).2
      "timed out waiting for connection" rfl⟩

/-- Claim C5: when resolution of the endpoint string fails, `wait_store`
fails fast with an `InvalidAddress`-kind (`invalid_data`) error — the
result is the same for every connect oracle and every fuel, so the retry
loop is never entered and no connect attempt is made. -/
theorem wait_store_resolution_failure
    (resolve : String → Except String (List SockAddr))
    (connect : SockAddr → Nat → Bool) (addr : String)
    (fuel : Nat) :
    ∀ err, resolve addr = .error err →
      wait_store ⟨resolve, connect⟩ addr fuel =
        .err (.invalidData "Wait store" ("invalid address format " ++ err)) := by
  intro err h
  simp only [wait_store, h]

/-- Witness for `wait_store_resolution_failure` at a concrete failing
resolver. -/
theorem wait_store_resolution_failure_witness :
    wait_store ⟨fun _ => .error "bad port", fun _ _ => true⟩ "no:such" 5 =
      .err (.invalidData "Wait store" "invalid address format bad port") :=
  wait_store_resolution_failure (fun _ => .error "bad port")
    (fun _ _ => true) "no:such" 5 "bad port" rfl

/-- The connect loop of `wait_store` can only exit successfully or keep
running: it never produces an error or a panic. -/
theorem wait_loop_no_err_no_panic (connect : Nat → Bool) :
    ∀ fuel i slept,
      (∀ e, wait_loop connect fuel i slept ≠ .err e)
      ∧ (∀ msg, wait_loop connect fuel i slept ≠ .panic msg) := by
  intro fuel
  induction fuel with
  | zero =>
    intro i slept
    exact ⟨fun e h => (by cases h), fun m h => (by cases h)⟩
  | succ f ih =>
    intro i slept
    by_cases hc : connect i = true
    · exact ⟨fun e h => (by simp [wait_loop, hc] at h),
        fun m h => (by simp [wait_loop, hc] at h)⟩
    · constructor
      · intro e h
        rw [wait_loop, if_neg (by simp [hc])] at h
        exact (ih (i + 1) (slept + 2)).1 e h
      · intro m h
        rw [wait_loop, if_neg (by simp [hc])] at h
        exact (ih (i + 1) (slept + 2)).2 m h

/-- When the first `k` connect attempts fail and attempt `k` succeeds,
the loop exits right after attempt `k`, having slept 2 seconds after
each of the `k` failures plus the final 2-second settle sleep. -/
theorem wait_loop_first_success (connect : Nat → Bool) :
    ∀ d fuel i slept, d < fuel → connect (i + d) = true →
      (∀ j, j < d → connect (i + j) = false) →
      wait_loop connect fuel i slept = .ok (i + d + 1) (slept + 2 * d + 2) := by
  intro d
  induction d with
  | zero =>
    intro fuel i slept hf hc _
    match fuel, hf with
    | f + 1, _ =>
      rw [wait_loop, if_pos (by simpa using hc)]
  | succ d ih =>
    intro fuel i slept hf hc hb
    match fuel, hf with
    | f + 1, hf =>
      have h0 : connect i = false := by simpa using hb 0 (Nat.succ_pos d)
      rw [wait_loop, if_neg (by simp [h0])]
      have hc2 : connect (i + 1 + d) = true := by
        rw [show i + 1 + d = i + (d + 1) by omega]; exact hc
      have hb2 : ∀ j, j < d → connect (i + 1 + j) = false := by
        intro j hj
        rw [show i + 1 + j = i + (j + 1) by omega]
        exact hb (j + 1) (by omega)
      rw [ih f (i + 1) (slept + 2) (by omega) hc2 hb2]
      congr 1 <;> omega

/-- While every connect attempt so far has failed, the loop is still
probing: after `fuel` iterations it has made `fuel` attempts and slept
2 seconds after each. -/
theorem wait_loop_all_fail (connect : Nat → Bool) :
    ∀ fuel i slept, (∀ j, j < fuel → connect (i + j) = false) →
      wait_loop connect fuel i slept = .running (i + fuel) (slept + 2 * fuel) := by
  intro fuel
  induction fuel with
  | zero =>
    intro i slept _
    simp [wait_loop]
  | succ f ih =>
    intro i slept hb
    have h0 : connect i = false := by simpa using hb 0 (Nat.succ_pos f)
    rw [wait_loop, if_neg (by simp [h0])]
    have hb2 : ∀ j, j < f → connect (i + 1 + j) = false := by
      intro j hj
      rw [show i + 1 + j = i + (j + 1) by omega]
      exact hb (j + 1) (by omega)
    rw [ih (i + 1) (slept + 2) hb2]
    congr 1 <;> omega

/-- Claim C4: for an endpoint that resolves, with the first successful
connect at attempt `k` (after `k` failures), `wait_store` retries with a
fixed 2-second sleep after each failure with no retry-count ceiling —
with insufficient fuel it is still probing, never an error — and once
reachability is achieved it returns success exactly then, with total
sleep `2*k + 2`: the `2*k` seconds of retry sleeps that precede the
first successful connect plus one further 2-second settle interval
before returning. -/
theorem wait_store_retry_and_settle (net : Net) (addr : String)
    (a : SockAddr) (rest : List SockAddr) (k : Nat)
    (hres : net.resolve addr = .ok (a :: rest))
    (hk : net.connect a k = true)
    (hb : ∀ j, j < k → net.connect a j = false) :
    (∀ fuel, k < fuel →
      wait_store net addr fuel = .ok (k + 1) (2 * k + 2))
    ∧ (∀ fuel, fuel ≤ k →
        wait_store net addr fuel = .running fuel (2 * fuel))
    ∧ (∀ fuel e, wait_store net addr fuel ≠ .err e) := by
  refine ⟨fun fuel hf => ?_, fun fuel hf => ?_, fun fuel e => ?_⟩
  · simp only [wait_store, hres]
    have h := wait_loop_first_success (net.connect a) k fuel 0 0 hf
      (by simpa using hk) (fun j hj => by simpa using hb j hj)
    simpa using h
  · simp only [wait_store, hres]
    have h := wait_loop_all_fail (net.connect a) fuel 0 0
      (fun j hj => by simpa using hb j (lt_of_lt_of_le hj hf))
    simpa using h
  · simp only [wait_store, hres]
    exact (wait_loop_no_err_no_panic (net.connect a) fuel 0 0).1 e

/-- Witness for `wait_store_retry_and_settle`: a store reachable from
the third attempt onward; with enough fuel the waiter returns after 3
attempts and 6 seconds of sleep, with too little fuel it is still
probing. -/
theorem wait_store_retry_and_settle_witness :
    wait_store ⟨fun _ => .ok [⟨0⟩], fun _ j => j == 2⟩ "a:1" 5 = .ok 3 6
    ∧ wait_store ⟨fun _ => .ok [⟨0⟩], fun _ j => j == 2⟩ "a:1" 1 =
        .running 1 2 := by
  constructor
  · exact (wait_store_retry_and_settle ⟨fun _ => .ok [⟨0⟩], fun _ j => j == 2⟩
      "a:1" ⟨0⟩ [] 2 rfl (by decide) (by decide)).1 5 (by decide)
  · exact (wait_store_retry_and_settle ⟨fun _ => .ok [⟨0⟩], fun _ j => j == 2⟩
      "a:1" ⟨0⟩ [] 2 rfl (by decide) (by decide)).2.1 1 (by decide)

/-- Claim C9: `wait_store` is total — it returns a value rather than
panicking — exactly under the precondition that resolution yields at
least one socket address: when resolution succeeds with an empty address
list it panics with `Unable to resolve store address`, and in every
other case (resolution error, or at least one address) it does not
panic. -/
theorem wait_store_total_iff_resolvable (net : Net) (addr : String)
    (fuel : Nat) :
    (net.resolve addr = .ok [] →
      wait_store net addr fuel = .panic "Unable to resolve store address")
    ∧ (net.resolve addr ≠ .ok [] →
        ∀ msg, wait_store net addr fuel ≠ .panic msg) := by
  constructor
  · intro h
    simp only [wait_store, h]
  · intro h msg
    unfold wait_store
    match hres : net.resolve addr with
    | .error err => intro hcontra; cases hcontra
    | .ok [] => exact absurd hres h
    | .ok (a :: rest) =>
      exact (wait_loop_no_err_no_panic (net.connect a) fuel 0 0).2 msg

/-- Witness for `wait_store_total_iff_resolvable`: a resolver returning
an empty address list makes `wait_store` panic, and one returning an
address does not. -/
theorem wait_store_total_iff_resolvable_witness :
    wait_store ⟨fun _ => .ok [], fun _ _ => true⟩ "a:1" 3 =
      .panic "Unable to resolve store address"
    ∧ wait_store ⟨fun _ => .ok [⟨0⟩], fun _ _ => true⟩ "a:1" 3 ≠
        .panic "Unable to resolve store address" := by
  constructor
  · exact (wait_store_total_iff_resolvable
      ⟨fun _ => .ok [], fun _ _ => true⟩ "a:1" 3).1 rfl
  · exact (wait_store_total_iff_resolvable
      ⟨fun _ => .ok [⟨0⟩], fun _ _ => true⟩ "a:1" 3).2 (by simp)
      "Unable to resolve store address"

/-- Claim C2: `init` runs its steps in strict order, each gating the
next.  A failure of `wait_store` propagates unchanged, for every pool
builder and every migration outcome (so no later step runs); while the
waiter is still probing no later step runs either; a `create_pool`
failure propagates for every migration outcome; a connection-acquisition
failure propagates; a migration failure surfaces as the
`CockroachDB migration` interrupted error; and `init` returns a pool
only when every single step succeeded. -/
theorem init_sequential_gating (env : Env) (conf : DaemonConfig)
    (fuel : Nat) :
    (∀ e, wait_store env.net (store_addr_of env.store_url) fuel = .err e →
      ∀ build mig,
        init { env with build := build, migResult := mig } conf fuel = .err e)
    ∧ (∀ att s,
        wait_store env.net (store_addr_of env.store_url) fuel = .running att s →
        ∀ build mig,
          init { env with build := build, migResult := mig } conf fuel = .running)
    ∧ (∀ att s e,
        wait_store env.net (store_addr_of env.store_url) fuel = .ok att s →
        create_pool env.build (store_addr_of env.store_url) conf = .error e →
        ∀ mig, init { env with migResult := mig } conf fuel = .err e)
    ∧ (∀ att s pool e,
        wait_store env.net (store_addr_of env.store_url) fuel = .ok att s →
        create_pool env.build (store_addr_of env.store_url) conf = .ok pool →
        get_pool_conn pool = .error e →
        ∀ mig, init { env with migResult := mig } conf fuel = .err e)
    ∧ (∀ att s pool conn err,
        wait_store env.net (store_addr_of env.store_url) fuel = .ok att s →
        create_pool env.build (store_addr_of env.store_url) conf = .ok pool →
        get_pool_conn pool = .ok conn →
        env.migResult = .error err →
        init env conf fuel = .err (.interupted "CockroachDB migration" err))
    ∧ (∀ pool, init env conf fuel = .ok pool →
        (∃ att s,
          wait_store env.net (store_addr_of env.store_url) fuel = .ok att s)
        ∧ create_pool env.build (store_addr_of env.store_url) conf = .ok pool
        ∧ (∃ conn, get_pool_conn pool = .ok conn)
        ∧ env.migResult = .ok ()) := by
  refine ⟨?_, ?_, ?_, ?_, ?_, ?_⟩
  · intro e hw build mig
    simp only [init, hw]
  · intro att s hw build mig
    simp only [init, hw]
  · intro att s e hw hp mig
    simp only [init, hw, hp]
  · intro att s pool e hw hp hg mig
    simp only [init, hw, hp, hg]
  · intro att s pool conn err hw hp hg hm
    simp only [init, hw, hp, hg, hm]
  · intro pool h
    simp only [init] at h
    split at h
    · cases h
    · cases h
    · cases h
    · rename_i att s hw
      split at h
      · cases h
      · rename_i pool2 hp
        split at h
        · cases h
        · rename_i conn hg
          split at h
          · cases h
          · rename_i u hm
            cases h
            exact ⟨⟨att, s, hw⟩, hp, ⟨conn, hg⟩, by cases u; exact hm⟩

/-- Witness for `init_sequential_gating`: a fully succeeding
environment, on which the all-steps-succeeded conjunct is extracted from
a concrete successful `init` run. -/
theorem init_sequential_gating_witness :
    (∃ att s, wait_store ⟨fun _ => .ok [⟨0⟩], fun _ _ => true⟩
        "nstore.nanocl.internal:26258" 1 = .ok att s)
    ∧ create_pool (fun _ => .ok ⟨0, .ok ⟨0⟩⟩) "nstore.nanocl.internal:26258"
        ⟨"/var/lib/nanocl", "n1", "10.0.0.1"⟩ = .ok ⟨0, .ok ⟨0⟩⟩
    ∧ (∃ conn, get_pool_conn ⟨0, .ok ⟨0⟩⟩ = .ok conn)
    ∧ (Except.ok () : Except String Unit) = .ok () :=
  (init_sequential_gating
    ⟨.error .notPresent, ⟨fun _ => .ok [⟨0⟩], fun _ _ => true⟩,
      fun _ => .ok ⟨0, .ok ⟨0⟩⟩, .ok ()⟩
    ⟨"/var/lib/nanocl", "n1", "10.0.0.1"⟩ 1).2.2.2.2.2 ⟨0, .ok ⟨0⟩⟩ rfl

/-- Claim C10: when `STORE_URL` is unset, or set to a non-unicode value,
`init` silently falls back to the fixed default address
`nstore.nanocl.internal:26258` — it behaves exactly as when the variable
is set to that default, reporting no error — while a present
valid-unicode value overrides the default. -/
theorem init_store_url_default :
    store_addr_of (.error .notPresent) = "nstore.nanocl.internal:26258"
    ∧ store_addr_of (.error .notUnicode) = "nstore.nanocl.internal:26258"
    ∧ (∀ s, store_addr_of (.ok s) = s)
    ∧ (∀ env conf fuel e, env.store_url = .error e →
        init env conf fuel =
          init { env with store_url := .ok "nstore.nanocl.internal:26258" }
            conf fuel) := by
  refine ⟨rfl, rfl, fun s => rfl, fun env conf fuel e h => ?_⟩
  simp only [init, store_addr_of, h]

/-- Witness for `init_store_url_default`: with `STORE_URL` unset, a
concrete `init` run equals the run with the variable set to the
default address. -/
theorem init_store_url_default_witness :
    init ⟨.error .notPresent, ⟨fun _ => .ok [⟨0⟩], fun _ _ => true⟩,
        fun _ => .ok ⟨0, .ok ⟨0⟩⟩, .ok ()⟩
      ⟨"/var/lib/nanocl", "n1", "10.0.0.1"⟩ 1 =
    init ⟨.ok "nstore.nanocl.internal:26258",
        ⟨fun _ => .ok [⟨0⟩], fun _ _ => true⟩,
        fun _ => .ok ⟨0, .ok ⟨0⟩⟩, .ok ()⟩
      ⟨"/var/lib/nanocl", "n1", "10.0.0.1"⟩ 1 :=
  init_store_url_default.2.2.2
    ⟨.error .notPresent, ⟨fun _ => .ok [⟨0⟩], fun _ _ => true⟩,
      fun _ => .ok ⟨0, .ok ⟨0⟩⟩, .ok ()⟩
    ⟨"/var/lib/nanocl", "n1", "10.0.0.1"⟩ 1 .notPresent rfl

/-- Membership in the pending list: a migration is pending exactly when
the embedded set lists it and the ledger does not. -/
theorem mem_pending_of {m : Nat} {migrations applied : List Nat} :
    m ∈ pending_of migrations applied ↔ m ∈ migrations ∧ m ∉ applied := by
  simp [pending_of, List.mem_filter]

/-- An empty ledger leaves every embedded migration pending, in the
embedded order. -/
theorem pending_of_nil_ledger (migrations : List Nat) :
    pending_of migrations [] = migrations := by
  simp [pending_of]

/-- A ledger already recording every embedded migration leaves nothing
pending. -/
theorem pending_of_applied_self (migrations : List Nat) :
    pending_of migrations migrations = [] := by
  apply List.eq_nil_iff_forall_not_mem.mpr
  intro m hm
  rcases mem_pending_of.mp hm with ⟨h1, h2⟩
  exact h2 h1

/-- Claim C3: from a store with zero applied migrations, the runner
applies all embedded migrations in ascending identifier order and
records each as applied; a second run against the same store applies
zero additional migrations and leaves the ledger unchanged; and a
migration already recorded as applied is never among the migrations a
run applies. -/
theorem migration_runner_asc_idempotent (migrations : List Nat)
    (hasc : List.Sorted (· < ·) migrations) :
    (run_pending_migrations migrations ⟨[]⟩).2 = migrations
    ∧ List.Sorted (· < ·) (run_pending_migrations migrations ⟨[]⟩).2
    ∧ (run_pending_migrations migrations ⟨[]⟩).1.applied = migrations
    ∧ (run_pending_migrations migrations
        (run_pending_migrations migrations ⟨[]⟩).1).2 = []
    ∧ (run_pending_migrations migrations
        (run_pending_migrations migrations ⟨[]⟩).1).1 =
      (run_pending_migrations migrations ⟨[]⟩).1
    ∧ (∀ st : MigState, ∀ m ∈ st.applied,
        m ∉ (run_pending_migrations migrations st).2) := by
  have hfirst : (run_pending_migrations migrations ⟨[]⟩).2 = migrations := by
    simp [run_pending_migrations, pending_of_nil_ledger]
  have hledger : (run_pending_migrations migrations ⟨[]⟩).1.applied =
      migrations := by
    simp [run_pending_migrations, pending_of_nil_ledger]
  refine ⟨hfirst, (by rw [hfirst]; exact hasc), hledger, ?_, ?_, ?_⟩
  · simp [run_pending_migrations, pending_of_nil_ledger,
      pending_of_applied_self]
  · simp [run_pending_migrations, pending_of_nil_ledger,
      pending_of_applied_self]
  · intro st m hm hpend
    exact (mem_pending_of.mp hpend).2 hm

/-- Witness for `migration_runner_asc_idempotent` on the embedded set
`[1, 2, 3]`: the first run applies all three, the second none. -/
theorem migration_runner_asc_idempotent_witness :
    (run_pending_migrations [1, 2, 3] ⟨[]⟩).2 = [1, 2, 3]
    ∧ (run_pending_migrations [1, 2, 3]
        (run_pending_migrations [1, 2, 3] ⟨[]⟩).1).2 = [] :=
  ⟨(migration_runner_asc_idempotent [1, 2, 3] (by decide)).1,
    (migration_runner_asc_idempotent [1, 2, 3] (by decide)).2.2.2.1⟩

/-- Claim C1: starting from a table with no row named `cfg.hostname`,
`register` inserts exactly the identity
`{ name = hostname, ip_address = gateway }`; a second registration of
the same identity changes nothing (exactly one row remains); a later
registration with the same name and any other configuration (in
particular a different gateway) also changes nothing, and the one row
for that name still carries the first gateway. -/
theorem register_idempotent_no_overwrite (cfg cfg2 : DaemonConfig)
    (table : NodeTable)
    (hname : cfg2.hostname = cfg.hostname)
    (hfresh : count_name table cfg.hostname = 0) :
    register ⟨cfg, table⟩ = table ++ [⟨cfg.hostname, cfg.gateway⟩]
    ∧ count_name (register ⟨cfg, table⟩) cfg.hostname = 1
    ∧ register ⟨cfg, register ⟨cfg, table⟩⟩ = register ⟨cfg, table⟩
    ∧ register ⟨cfg2, register ⟨cfg, register ⟨cfg, table⟩⟩⟩ =
        register ⟨cfg, table⟩
    ∧ (register ⟨cfg2, register ⟨cfg, register ⟨cfg, table⟩⟩⟩).filter
        (fun r => r.name == cfg.hostname) = [⟨cfg.hostname, cfg.gateway⟩] := by
  have hfilter : table.filter (fun r => r.name == cfg.hostname) = [] :=
    List.length_eq_zero.mp hfresh
  have hany : table.any (fun r => r.name == cfg.hostname) = false := by
    by_contra hc
    rw [Bool.not_eq_false, List.any_eq_true] at hc
    obtain ⟨r, hr, hp⟩ := hc
    have hmem : r ∈ table.filter (fun r => r.name == cfg.hostname) :=
      List.mem_filter.mpr ⟨hr, hp⟩
    rw [hfilter] at hmem
    cases hmem
  have h1 : register ⟨cfg, table⟩ =
      table ++ [⟨cfg.hostname, cfg.gateway⟩] := by
    simp [register, create_if_not_exists, hany]
  have hany1 : (table ++ [(⟨cfg.hostname, cfg.gateway⟩ : NodeDb)]).any
      (fun r => r.name == cfg.hostname) = true := by
    simp
  have h2 : register ⟨cfg, table ++ [(⟨cfg.hostname, cfg.gateway⟩ : NodeDb)]⟩ =
      table ++ [⟨cfg.hostname, cfg.gateway⟩] := by
    simp [register, create_if_not_exists, hany1]
  have h3 : register ⟨cfg2, table ++ [(⟨cfg.hostname, cfg.gateway⟩ : NodeDb)]⟩ =
      table ++ [⟨cfg.hostname, cfg.gateway⟩] := by
    simp [register, create_if_not_exists, hname]
  have hfilter1 :
      (table ++ [(⟨cfg.hostname, cfg.gateway⟩ : NodeDb)]).filter
        (fun r => r.name == cfg.hostname) =
      [⟨cfg.hostname, cfg.gateway⟩] := by
    simp [List.filter_append, hfilter]
  refine ⟨h1, ?_, ?_, ?_, ?_⟩
  · rw [h1]
    simp [count_name, List.filter_append, hfilter]
  · rw [h1, h2]
  · rw [h1, h2, h3]
  · rw [h1, h2, h3, hfilter1]

/-- Witness for `register_idempotent_no_overwrite`: registering
`{n1, 10.0.0.1}` twice and then `{n1, 10.0.0.2}` on an empty table
leaves one row, carrying the first address. -/
theorem register_idempotent_no_overwrite_witness :
    count_name (register ⟨⟨"/sd", "n1", "10.0.0.1"⟩, []⟩) "n1" = 1
    ∧ register ⟨⟨"/sd", "n1", "10.0.0.2"⟩,
        register ⟨⟨"/sd", "n1", "10.0.0.1"⟩,
          register ⟨⟨"/sd", "n1", "10.0.0.1"⟩, []⟩⟩⟩ =
      register ⟨⟨"/sd", "n1", "10.0.0.1"⟩, []⟩
    ∧ (register ⟨⟨"/sd", "n1", "10.0.0.2"⟩,
        register ⟨⟨"/sd", "n1", "10.0.0.1"⟩,
          register ⟨⟨"/sd", "n1", "10.0.0.1"⟩, []⟩⟩⟩).filter
        (fun r => r.name == "n1") = [⟨"n1", "10.0.0.1"⟩] :=
  ⟨(register_idempotent_no_overwrite ⟨"/sd", "n1", "10.0.0.1"⟩
      ⟨"/sd", "n1", "10.0.0.2"⟩ [] rfl rfl).2.1,
    (register_idempotent_no_overwrite ⟨"/sd", "n1", "10.0.0.1"⟩
      ⟨"/sd", "n1", "10.0.0.2"⟩ [] rfl rfl).2.2.2.1,
    (register_idempotent_no_overwrite ⟨"/sd", "n1", "10.0.0.1"⟩
      ⟨"/sd", "n1", "10.0.0.2"⟩ [] rfl rfl).2.2.2.2⟩

end Nanocl
